import Mathlib

/-!
Verification development for the opentrack aruco tracker core
(src/tracker-aruco/ftnoir_tracker_aruco.cpp).

The C++ code is shallowly embedded: `double`/`float` scalars are modelled
as rationals (ℚ), pixel coordinates and `cv::Rect` fields as integers (ℤ),
and the OpenCV detector / PnP solver / projection / Rodrigues results as
oracle inputs supplied per capture-loop iteration.  The capture loop's
per-iteration body, the ROI predictor, the frame-rate estimator, the pose
store and the calibration dialog control flow are translated directly from
the source.
-/

namespace Aruco

/-- A `cv::Rect` with integer origin and size, as used for `last_roi`. -/
structure Rect where
  x : Int
  y : Int
  w : Int
  h : Int
deriving DecidableEq, Repr

/-- The sentinel "no prediction" ROI `cv::Rect(65535, 65535, 0, 0)`. -/
def no_roi : Rect := ⟨65535, 65535, 0, 0⟩

/-- Embeds `aruco_tracker::clamp_last_roi` (lines 225-246): the exact sequence of
conditional mutations performed on `last_roi`, with `cols = color.cols` and
`rows = color.rows`.  At the point of entry the rectangle's `w`/`h` fields
temporarily hold max-x/max-y of the accumulated bounding box; the final two
subtractions convert them to an actual width/height. -/
def clamp_last_roi (cols rows : Int) (r0 : Rect) : Rect :=
  let x1 := if r0.x < 0 then 0 else r0.x
  let y1 := if r0.y < 0 then 0 else r0.y
  let w1 := if r0.w < 1 then 1 else r0.w
  let h1 := if r0.h < 1 then 1 else r0.h
  let x2 := if x1 ≥ cols - 1 then cols - 1 else x1
  let w2 := if w1 ≥ cols - 1 then cols - 1 else w1
  let y2 := if y1 ≥ rows - 1 then rows - 1 else y1
  let h2 := if h1 ≥ rows - 1 then rows - 1 else h1
  ⟨x2, y2, w2 - x2, h2 - y2⟩

/-- The accumulation loop of `aruco_tracker::set_roi_from_projection`
(lines 310-328): starting from `cv::Rect(color.cols-1, color.rows-1, 0, 0)`,
fold min into `x`/`y` and max into `w`/`h` over the (int-truncated)
projected points. -/
def roi_accum (cols rows : Int) (ps : List (Int × Int)) : Rect :=
  ps.foldl
    (fun r p => ⟨min p.1 r.x, min p.2 r.y, max p.1 r.w, max p.2 r.h⟩)
    ⟨cols - 1, rows - 1, 0, 0⟩

/-- Embeds `aruco_tracker::set_roi_from_projection` (lines 310-331): accumulate the
bounding box of the projected points (coordinates already truncated to int,
as by the C cast `int(proj.x)`), then `clamp_last_roi`. -/
def set_roi_from_projection (cols rows : Int) (ps : List (Int × Int)) : Rect :=
  clamp_last_roi cols rows (roi_accum cols rows ps)

/-- A sub-pixel marker corner (`cv::Point2f`). -/
structure Pt where
  x : ℚ
  y : ℚ
deriving DecidableEq, Repr

/-- A detected marker: its list of image-space corner points. -/
abbrev Marker := List Pt

/-- The min/max marker-size bounds passed to `detector.setMinMaxSize` by
`aruco_tracker::detect_with_roi` (lines 103-104), with `cols =
grayscale.cols` and `w = last_roi.width`:
`(min(1, max(.01, size_min*cols/w)), max(.01, min(1, size_max*cols/w)))`. -/
def detect_size_bounds (smin smax : ℚ) (cols w : Int) : ℚ × ℚ :=
  (min 1 (max (1/100) (smin * (cols : ℚ) / (w : ℚ))),
   max (1/100) (min 1 (smax * (cols : ℚ) / (w : ℚ))))

/-- Clamping into the interval [0.01, 1.0], as the spec words it. -/
def clamp_unit_interval (v : ℚ) : ℚ := max (1/100) (min 1 v)

/-- Result of the ROI-constrained detection attempt: whether the detector
was invoked at all, whether a marker was accepted, the marker list after
the corner offsets, and the value of `last_roi` afterwards. -/
structure DetectResult where
  ran : Bool
  found : Bool
  markers : List Marker
  roi : Rect
deriving DecidableEq, Repr

/-- Embeds `aruco_tracker::detect_with_roi` (lines 99-123).  `roi` is the stored
`last_roi`; `detected` is what `detector.detect` returns on the cropped
view `grayscale(last_roi)` (an oracle for the OpenCV detector).  On
acceptance the single marker's corners are offset by the ROI origin back
into full-frame coordinates; on any failure `last_roi` becomes the
sentinel. -/
def detect_with_roi (roi : Rect) (detected : List Marker) : DetectResult :=
  if 1 < roi.w ∧ 1 < roi.h then
    match detected with
    | [m] =>
      if m.length = 4 then
        { ran := true, found := true
          markers := [m.map fun p => ⟨p.x + (roi.x : ℚ), p.y + (roi.y : ℚ)⟩]
          roi := roi }
      else
        { ran := true, found := false, markers := detected, roi := no_roi }
    | _ => { ran := true, found := false, markers := detected, roi := no_roi }
  else
    { ran := false, found := false, markers := detected, roi := no_roi }

/-- Embeds `aruco_tracker::detect_without_roi` (lines 125-130): full-frame
detection succeeds iff exactly one marker with exactly four corners was
returned. -/
def detect_without_roi (detected : List Marker) : Bool :=
  match detected with
  | [m] => m.length == 4
  | _ => false

/-- Embeds `aruco_tracker::update_fps` (lines 197-208), with `dt` the elapsed
seconds measured by `fps_timer`: `alpha = dt/(dt+RC)`; the estimate is
updated only when `dt > 1e-3`, by `fps = fps*(1-alpha); fps += alpha*(1/dt + .8)`. -/
def update_fps (RC fps dt : ℚ) : ℚ :=
  let alpha := dt / (dt + RC)
  if 1/1000 < dt then fps * (1 - alpha) + alpha * (1/dt + 8/10) else fps

/-- A 3-vector of scalars (`cv::Vec3d` / `cv::Point3f`). -/
structure Vec3 where
  x : ℚ
  y : ℚ
  z : ℚ
deriving DecidableEq, Repr

/-- A 3×3 matrix of scalars (`cv::Matx33d`), listed row-major. -/
structure Mat3 where
  m00 : ℚ
  m01 : ℚ
  m02 : ℚ
  m10 : ℚ
  m11 : ℚ
  m12 : ℚ
  m20 : ℚ
  m21 : ℚ
  m22 : ℚ
deriving DecidableEq, Repr

/-- The zero matrix, the value of a default-constructed `cv::Matx33d`. -/
def Mat3.zero : Mat3 := ⟨0, 0, 0, 0, 0, 0, 0, 0, 0⟩

/-- The published 6-element pose array `double pose[6]`.  Field order
follows the opentrack plugin Axis enum (TX = 0, TY = 1, TZ = 2, Yaw = 3,
Pitch = 4, Roll = 5); the enum itself lives in the plugin API header, but
the assignment is forced by `set_rmat`'s loop writing indices 0..2 with
translation components and the named indices Yaw/Pitch/Roll with Euler
angles. -/
structure Pose6 where
  tx : ℚ
  ty : ℚ
  tz : ℚ
  yaw : ℚ
  pitch : ℚ
  roll : ℚ
deriving DecidableEq, Repr

/-- The tracker state shared between the capture loop and its consumers:
the published pose, the predictive ROI, the internal rotation matrix `r`
and translation vector `t` consumed via `getRT`, and the frame-rate
estimate. -/
structure TrackerState where
  pose : Pose6
  last_roi : Rect
  r : Mat3
  t : Vec3
  fps : ℚ
deriving DecidableEq, Repr

/-- The tracker state when the capture loop starts: `pose` zeroed by
`start_tracker` (line 86-87), `last_roi` the sentinel and `fps` zero from
the constructor init list (lines 48, 53), `r`/`t` default-initialized
(zero) `cv::Matx33d`/`cv::Vec3d` members. -/
def initial_state : TrackerState :=
  { pose := ⟨0, 0, 0, 0, 0, 0⟩
    last_roi := ⟨65535, 65535, 0, 0⟩
    r := Mat3.zero
    t := ⟨0, 0, 0⟩
    fps := 0 }

/-- Embeds `aruco_tracker::set_rmat` (lines 291-308).  `euler` is the result of
`cv::RQDecomp3x3` and `rmat` the result of `cv::Rodrigues` on the solver's
rotation vector (both oracles); `tvec` is the solver's translation vector.
The loop stores `tvec(i) * .1` into `pose[0..2]` (= TX, TY, TZ), then
`pose[Yaw] = euler[1]`, `pose[Pitch] = -euler[0]`, `pose[Roll] = euler[2]`,
and finally `r = rmat` and `t = (tvec[0], -tvec[1], tvec[2])`. -/
def set_rmat (euler tvec : Vec3) (rmat : Mat3) (st : TrackerState) : TrackerState :=
  { st with
    pose :=
      { tx := tvec.x * (1/10)
        ty := tvec.y * (1/10)
        tz := tvec.z * (1/10)
        yaw := euler.y
        pitch := -euler.x
        roll := euler.z }
    r := rmat
    t := ⟨tvec.x, -tvec.y, tvec.z⟩ }

/-- Embeds `aruco_tracker::getRT` (lines 91-97): the rotation/translation pair
handed to the calibration controller. -/
def getRT (st : TrackerState) : Mat3 × Vec3 := (st.r, st.t)

/-- The per-iteration external world: the camera read result and the
outcomes of the OpenCV calls the loop makes (detector on the ROI crop,
detector on the full frame, `cv::solvePnP`, `cv::Rodrigues`,
`cv::RQDecomp3x3`, and the int-truncated `cv::projectPoints` output used
by `set_last_roi`). -/
structure Env where
  readOk : Bool
  dt : ℚ
  cols : Int
  rows : Int
  roiDetected : List Marker
  fullDetected : List Marker
  solveOk : Bool
  tvec : Vec3
  rmat : Mat3
  euler : Vec3
  proj : List (Int × Int)

/-- Whether the iteration accepts a marker:
`detect_with_roi() || detect_without_roi()` (line 366). -/
def iter_found (env : Env) (st : TrackerState) : Bool :=
  (detect_with_roi st.last_roi env.roiDetected).found || detect_without_roi env.fullDetected

/-- One iteration of the capture loop `aruco_tracker::run` (lines 347-388):
on a failed read, `continue` leaves the state untouched; otherwise update
the fps estimate, run the two-phase detection, and on success plus a
successful `cv::solvePnP` recompute `last_roi` from the projected model
points (`set_last_roi`) and publish via `set_rmat`; any failure resets
`last_roi` to the sentinel (the `fail:` label).  The second component is
the `ok` flag passed to `draw_ar`. -/
def iterate (RC : ℚ) (env : Env) (st : TrackerState) : TrackerState × Bool :=
  if env.readOk = false then (st, false)
  else
    let st1 : TrackerState := { st with fps := update_fps RC st.fps env.dt }
    let dres := detect_with_roi st1.last_roi env.roiDetected
    let st2 : TrackerState := { st1 with last_roi := dres.roi }
    let ok : Bool := dres.found || detect_without_roi env.fullDetected
    if ok then
      if env.solveOk then
        (set_rmat env.euler env.tvec env.rmat
          { st2 with last_roi := set_roi_from_projection env.cols env.rows env.proj }, ok)
      else ({ st2 with last_roi := no_roi }, ok)
    else ({ st2 with last_roi := no_roi }, ok)

/-- Embeds `aruco_tracker::run` (lines 333-389) as a whole: if `open_camera()`
fails the function returns before the loop body ever executes (lines
342-343); otherwise the loop body runs once per element of `envs` (the
iterations until `stop` is observed). -/
def run (RC : ℚ) (openOk : Bool) (envs : List Env) (st : TrackerState) : TrackerState :=
  if openOk then envs.foldl (fun s e => (iterate RC e s).1) st else st

/-- The head-center offset settings `s.headpos_x/y/z` used by the
calibration dialog. -/
structure HeadposSettings where
  headpos_x : ℚ
  headpos_y : ℚ
  headpos_z : ℚ
deriving DecidableEq, Repr

/-- Modelled from the spec: the translation-calibrator accumulator
(`cv/translation-calibrator.hpp`, not under src/) that "accumulates
rotation/translation samples into an estimator of the physical offset";
modelled as the stream of (rotation, translation) samples it has been fed,
with the fitted estimate kept abstract (a parameter of the theorems). -/
structure Calibrator where
  samples : List (Mat3 × Vec3)
deriving DecidableEq, Repr

/-- Embeds `calibrator.reset()`: an empty accumulator. -/
def Calibrator.reset : Calibrator := ⟨[]⟩

/-- Embeds `calibrator.update(r, t)`: feed one sample. -/
def Calibrator.update (c : Calibrator) (r : Mat3) (t : Vec3) : Calibrator :=
  ⟨c.samples ++ [(r, t)]⟩

/-- The calibration dialog state: whether `calib_timer` is active, the
head-center offset settings, and the accumulator. -/
structure DialogState where
  timerActive : Bool
  s : HeadposSettings
  calibrator : Calibrator
deriving DecidableEq, Repr

/-- Embeds `aruco_dialog::cleanupCalib` (lines 450-454): stop the timer if it is
active. -/
def cleanupCalib (d : DialogState) : DialogState :=
  if d.timerActive then { d with timerActive := false } else d

/-- Embeds `aruco_dialog::toggleCalibrate` (lines 429-448), with `est` the
accumulator's `get_estimate()` (an oracle for the calibrator's fit):
timer inactive → zero the headpos settings, reset the accumulator, start
the timer; timer active → `cleanupCalib()` then write the estimate into
the headpos settings. -/
def toggleCalibrate (est : Calibrator → Vec3) (d : DialogState) : DialogState :=
  if !d.timerActive then
    { d with s := ⟨0, 0, 0⟩, calibrator := Calibrator.reset, timerActive := true }
  else
    let d1 := cleanupCalib d
    let pos := est d.calibrator
    { d1 with s := ⟨pos.x, pos.y, pos.z⟩ }

/-- Embeds `aruco_dialog::update_tracker_calibration` (lines 456-465): while the
timer is active, read the tracker's rotation/translation via `getRT` and
feed the accumulator. -/
def update_tracker_calibration (d : DialogState) (st : TrackerState) : DialogState :=
  if d.timerActive then
    { d with calibrator := d.calibrator.update (getRT st).1 (getRT st).2 }
  else d

/-- The two actors racing over the pose store: the capture loop (writer,
`set_rmat`) and the pose consumer (reader, `aruco_tracker::data`). -/
inductive Tid where
  | writer
  | reader
deriving DecidableEq, Repr

/-- Fine-grained interleaving state for the pose store.  The six `pose`
slots are abstracted to the identity of the write that produced them
(`slots i = k` means slot `i` currently holds a component of the `k`-th
published pose); `lock` is the `QMutex mtx` guarding them.  The writer's
critical section is the six pose stores of `set_rmat` (lines 297-304) under
`QMutexLocker`; the reader's is the six loads of `aruco_tracker::data`
(lines 391-401).  `wpc`/`rpc` are program counters: 0 = outside the
critical section, `i + 1` (for `i < 6`) = holding the lock with `i` slots
written/read, 7 = all six done, about to release.  `wcount` is the id of
the write in progress (or next); `rbuf` is the consumer's `data[6]`
output buffer. -/
structure SysState where
  lock : Option Tid
  slots : Fin 6 → ℕ
  wcount : ℕ
  wpc : ℕ
  rpc : ℕ
  rbuf : Fin 6 → ℕ
deriving DecidableEq, Repr

/-- Initial pose-store system state: lock free, both actors outside their
critical sections, all six slots holding the initial (zeroth) pose. -/
def initSys : SysState :=
  { lock := none
    slots := fun _ => 0
    wcount := 1
    wpc := 0
    rpc := 0
    rbuf := fun _ => 0 }

/-- One atomic micro-step of the interleaved writer/reader system.  Lock
acquisition blocks while the other actor holds the mutex; each of the six
component stores/loads is an individual step, so a torn read would be
expressible if the lock discipline did not exclude it. -/
inductive Step : SysState → SysState → Prop where
  | w_acquire (s : SysState) (h : s.lock = none) (hpc : s.wpc = 0) :
      Step s { s with lock := some Tid.writer, wpc := 1 }
  | w_write (s : SysState) (i : Fin 6) (hpc : s.wpc = i.val + 1) :
      Step s { s with slots := Function.update s.slots i s.wcount, wpc := s.wpc + 1 }
  | w_release (s : SysState) (hpc : s.wpc = 7) :
      Step s { s with lock := none, wpc := 0, wcount := s.wcount + 1 }
  | r_acquire (s : SysState) (h : s.lock = none) (hpc : s.rpc = 0) :
      Step s { s with lock := some Tid.reader, rpc := 1 }
  | r_read (s : SysState) (i : Fin 6) (hpc : s.rpc = i.val + 1) :
      Step s { s with rbuf := Function.update s.rbuf i (s.slots i), rpc := s.rpc + 1 }
  | r_release (s : SysState) (hpc : s.rpc = 7) :
      Step s { s with lock := none, rpc := 0 }

/-- States reachable by interleaving writer and reader micro-steps from
the initial pose-store state. -/
inductive Reachable : SysState → Prop where
  | init : Reachable initSys
  | step {s s' : SysState} : Reachable s → Step s s' → Reachable s'

/-- The inductive invariant of the pose-store system: holding the mutex is
equivalent to being inside one's critical section; slots written so far in
the current round hold the current write id, the rest the previous one;
and every component the reader has loaded so far came from the same
(previous, completed) write. -/
def Inv (s : SysState) : Prop :=
  (s.lock = some Tid.writer ↔ (1 ≤ s.wpc ∧ s.wpc ≤ 7)) ∧
  (s.lock = some Tid.reader ↔ (1 ≤ s.rpc ∧ s.rpc ≤ 7)) ∧
  s.wpc ≤ 7 ∧ s.rpc ≤ 7 ∧ 1 ≤ s.wcount ∧
  (∀ i : Fin 6, s.slots i = if i.val + 2 ≤ s.wpc then s.wcount else s.wcount - 1) ∧
  (∀ i : Fin 6, i.val + 2 ≤ s.rpc → s.rbuf i = s.wcount - 1)

/-- Trace states for a concrete completed read from the initial state,
used to instantiate the no-torn-read theorem. -/
def c10_t1 : SysState :=
  ⟨some Tid.reader, fun _ => 0, 1, 0, 1, fun _ => 0⟩

def c10_t2 : SysState :=
  ⟨some Tid.reader, fun _ => 0, 1, 0, 2, Function.update (fun _ => 0) 0 0⟩

def c10_t3 : SysState :=
  ⟨some Tid.reader, fun _ => 0, 1, 0, 3,
    Function.update (Function.update (fun _ => 0) 0 0) 1 0⟩

def c10_t4 : SysState :=
  ⟨some Tid.reader, fun _ => 0, 1, 0, 4,
    Function.update (Function.update (Function.update (fun _ => 0) 0 0) 1 0) 2 0⟩

def c10_t5 : SysState :=
  ⟨some Tid.reader, fun _ => 0, 1, 0, 5,
    Function.update (Function.update (Function.update (Function.update
      (fun _ => 0) 0 0) 1 0) 2 0) 3 0⟩

def c10_t6 : SysState :=
  ⟨some Tid.reader, fun _ => 0, 1, 0, 6,
    Function.update (Function.update (Function.update (Function.update
      (Function.update (fun _ => 0) 0 0) 1 0) 2 0) 3 0) 4 0⟩

def c10_t7 : SysState :=
  ⟨some Tid.reader, fun _ => 0, 1, 0, 7,
    Function.update (Function.update (Function.update (Function.update
      (Function.update (Function.update (fun _ => 0) 0 0) 1 0) 2 0) 3 0) 4 0) 5 0⟩

/-- The clamped-ROI property as the spec states it: origin within
[0, cols-1] × [0, rows-1], rectangle contained in the frame, and width and
height at least 1. -/
def RoiSpecClaim (cols rows : Int) (r : Rect) : Prop :=
  0 ≤ r.x ∧ r.x ≤ cols - 1 ∧ 0 ≤ r.y ∧ r.y ≤ rows - 1 ∧
  r.x + r.w ≤ cols - 1 ∧ r.y + r.h ≤ rows - 1 ∧ 1 ≤ r.w ∧ 1 ≤ r.h

instance (cols rows : Int) (r : Rect) : Decidable (RoiSpecClaim cols rows r) := by
  unfold RoiSpecClaim
  infer_instance

/-- The clamped-ROI property the code actually guarantees: like
`RoiSpecClaim` but with width and height only nonnegative. -/
def RoiInBounds (cols rows : Int) (r : Rect) : Prop :=
  0 ≤ r.x ∧ r.x ≤ cols - 1 ∧ 0 ≤ r.y ∧ r.y ≤ rows - 1 ∧
  r.x + r.w ≤ cols - 1 ∧ r.y + r.h ≤ rows - 1 ∧ 0 ≤ r.w ∧ 0 ≤ r.h

instance (cols rows : Int) (r : Rect) : Decidable (RoiInBounds cols rows r) := by
  unfold RoiInBounds
  infer_instance

/-- A concrete iteration environment in which the camera read succeeds but
both detection attempts return nothing. -/
def c2_env : Env :=
  { readOk := true, dt := 1/60, cols := 640, rows := 480
    roiDetected := [], fullDetected := [], solveOk := false
    tvec := ⟨0, 0, 0⟩, rmat := Mat3.zero, euler := ⟨0, 0, 0⟩, proj := [] }

/-- A concrete iteration environment in which the ROI attempt has nothing
to find but full-frame detection returns exactly one 4-corner marker. -/
def c4_env : Env :=
  { readOk := true, dt := 1/60, cols := 640, rows := 480
    roiDetected := []
    fullDetected := [[⟨1, 2⟩, ⟨3, 4⟩, ⟨5, 6⟩, ⟨7, 8⟩]]
    solveOk := true
    tvec := ⟨0, 0, 1⟩, rmat := Mat3.zero, euler := ⟨0, 0, 0⟩
    proj := [(1, 2), (3, 4), (5, 6), (7, 8)] }

/-! ## Theorems -/

/-- Helper: `clamp_last_roi` yields an in-frame rectangle with nonnegative
width and height whenever its input satisfies the accumulation-loop
invariants (min ≤ max in both axes, maxima nonnegative). -/
theorem clamp_last_roi_spec (cols rows : Int) (r : Rect)
    (hc : 1 ≤ cols) (hr : 1 ≤ rows) (hxw : r.x ≤ r.w) (hyh : r.y ≤ r.h)
    (hw : 0 ≤ r.w) (hh : 0 ≤ r.h) :
    RoiInBounds cols rows (clamp_last_roi cols rows r) := by
  unfold RoiInBounds clamp_last_roi
  dsimp only
  split_ifs <;> omega

/-- Helper: the bounding-box accumulation over four points produces a
rectangle whose temporary max fields dominate its min fields and are
nonnegative. -/
theorem roi_accum_le (cols rows : Int) (p0 p1 p2 p3 : Int × Int) :
    (roi_accum cols rows [p0, p1, p2, p3]).x ≤ (roi_accum cols rows [p0, p1, p2, p3]).w ∧
    (roi_accum cols rows [p0, p1, p2, p3]).y ≤ (roi_accum cols rows [p0, p1, p2, p3]).h ∧
    0 ≤ (roi_accum cols rows [p0, p1, p2, p3]).w ∧
    0 ≤ (roi_accum cols rows [p0, p1, p2, p3]).h := by
  simp only [roi_accum, List.foldl]
  omega

/-- C3 (amended): for a frame with at least one column and one row, the
ROI computed by `set_roi_from_projection` followed by `clamp_last_roi` has
its origin within [0, frameWidth-1] × [0, frameHeight-1], fits inside the
frame, and has width ≥ 0 and height ≥ 0, for all projected point
coordinates including points projecting outside the frame (width or
height 0 occurs when the truncated projections span no pixel in that axis
or all lie at or beyond the frame's far edge). -/
theorem set_roi_from_projection_bounds (cols rows : Int) (p0 p1 p2 p3 : Int × Int)
    (hc : 1 ≤ cols) (hr : 1 ≤ rows) :
    RoiInBounds cols rows (set_roi_from_projection cols rows [p0, p1, p2, p3]) := by
  have h := roi_accum_le cols rows p0 p1 p2 p3
  exact clamp_last_roi_spec cols rows _ hc hr h.1 h.2.1 h.2.2.1 h.2.2.2

/-- Witness for C3's amended theorem at a 640×480 frame with projected
points far outside the frame on both sides. -/
theorem set_roi_from_projection_bounds_witness :
    (1 : Int) ≤ 640 ∧
    RoiInBounds 640 480
      (set_roi_from_projection 640 480 [(-50, -20), (100, 50), (200, 300), (700, 500)]) :=
  ⟨by decide,
   set_roi_from_projection_bounds 640 480 (-50, -20) (100, 50) (200, 300) (700, 500)
     (by decide) (by decide)⟩

/-- C3 counterexample: with a 640×480 frame and all four projected points
truncating to pixel (100, 100), the computed ROI is (100, 100, 0, 0): its
width and height are 0, refuting the claimed "width ≥ 1 and height ≥ 1". -/
theorem set_roi_from_projection_counterexample :
    set_roi_from_projection 640 480 [(100, 100), (100, 100), (100, 100), (100, 100)]
      = ⟨100, 100, 0, 0⟩ ∧
    ¬ RoiSpecClaim 640 480
      (set_roi_from_projection 640 480 [(100, 100), (100, 100), (100, 100), (100, 100)]) := by
  decide

/-- C1 (amended): `set_rmat` publishes the three translation components
scaled by 0.1 with no sign inversion, while the internal pair returned by
`getRT` holds the un-negated rotation matrix together with a translation
vector whose Y component is sign-inverted. -/
theorem set_rmat_signs (euler tvec : Vec3) (rmat : Mat3) (st : TrackerState) :
    (set_rmat euler tvec rmat st).pose.tx = tvec.x * (1/10) ∧
    (set_rmat euler tvec rmat st).pose.ty = tvec.y * (1/10) ∧
    (set_rmat euler tvec rmat st).pose.tz = tvec.z * (1/10) ∧
    getRT (set_rmat euler tvec rmat st) = (rmat, ⟨tvec.x, -tvec.y, tvec.z⟩) :=
  ⟨rfl, rfl, rfl, rfl⟩

/-- C1 counterexample: with solver translation (10, 20, 30), the published
pose's Y translation is 2 (scaled, un-negated) and the internal vector's Y
is -20 (negated) — the opposite of the claim, which expects the published
Y to be -2 and the internal vector to be the raw (10, 20, 30). -/
theorem set_rmat_counterexample :
    (set_rmat ⟨1, 2, 3⟩ ⟨10, 20, 30⟩ Mat3.zero initial_state).pose.ty = 2 ∧
    (set_rmat ⟨1, 2, 3⟩ ⟨10, 20, 30⟩ Mat3.zero initial_state).t.y = -20 ∧
    ¬ ((set_rmat ⟨1, 2, 3⟩ ⟨10, 20, 30⟩ Mat3.zero initial_state).pose.ty = -(20 * (1/10)) ∧
       (set_rmat ⟨1, 2, 3⟩ ⟨10, 20, 30⟩ Mat3.zero initial_state).t = ⟨10, 20, 30⟩) := by
  refine ⟨by norm_num [set_rmat], by norm_num [set_rmat, initial_state], ?_⟩
  rintro ⟨h1, h2⟩
  norm_num [set_rmat, initial_state] at h1

/-- C5: toggling calibration with the timer inactive zeroes all three
head-center-offset settings and resets the accumulator (before any
sampling tick can run); toggling with the timer active halts the timer
and writes the accumulator's estimate into the settings. -/
theorem toggleCalibrate_transitions (est : Calibrator → Vec3) (d : DialogState) :
    (d.timerActive = false →
      toggleCalibrate est d =
        { timerActive := true, s := ⟨0, 0, 0⟩, calibrator := Calibrator.reset }) ∧
    (d.timerActive = true →
      (toggleCalibrate est d).timerActive = false ∧
      (toggleCalibrate est d).s =
        ⟨(est d.calibrator).x, (est d.calibrator).y, (est d.calibrator).z⟩) := by
  constructor <;> intro h <;> simp [toggleCalibrate, cleanupCalib, h]

/-- Witness for C5 at a dialog with a stale offset and inactive timer. -/
theorem toggleCalibrate_transitions_witness :
    (⟨false, ⟨5, 6, 7⟩, ⟨[]⟩⟩ : DialogState).timerActive = false ∧
    toggleCalibrate (fun _ => ⟨1, 2, 3⟩) ⟨false, ⟨5, 6, 7⟩, ⟨[]⟩⟩ =
      { timerActive := true, s := ⟨0, 0, 0⟩, calibrator := Calibrator.reset } :=
  ⟨rfl, (toggleCalibrate_transitions (fun _ => ⟨1, 2, 3⟩) ⟨false, ⟨5, 6, 7⟩, ⟨[]⟩⟩).1 rfl⟩

/-- C6: when the measured interval exceeds the 1e-3 s threshold the
frame-rate estimate becomes `fps*(1-α) + α*(1/dt + 0.8)` with
`α = dt/(dt+RC)`; at or below the threshold it is unchanged. -/
theorem update_fps_formula (RC fps dt : ℚ) :
    (1/1000 < dt →
      update_fps RC fps dt
        = fps * (1 - dt/(dt + RC)) + (dt/(dt + RC)) * (1/dt + 8/10)) ∧
    (dt ≤ 1/1000 → update_fps RC fps dt = fps) := by
  constructor <;> intro h
  · simp only [update_fps]
    rw [if_pos h]
  · simp only [update_fps]
    rw [if_neg (not_lt.mpr h)]

/-- Witness for C6 at RC = 1/4 and a 60 Hz interval. -/
theorem update_fps_formula_witness :
    (1/1000 : ℚ) < 1/60 ∧
    update_fps (1/4) 0 (1/60)
      = 0 * (1 - (1/60)/((1/60) + (1/4))) + ((1/60)/((1/60) + (1/4))) * (1/(1/60) + 8/10) :=
  ⟨by norm_num, (update_fps_formula (1/4) 0 (1/60)).1 (by norm_num)⟩

/-- Helper: clamping into [0.01, 1] commutes between the two orders used
on the two arguments of `setMinMaxSize`. -/
theorem clamp_orders_eq (v : ℚ) : min 1 (max (1/100) v) = max (1/100) (min 1 v) := by
  rcases le_total v (1/100) with h | h <;> rcases le_total v 1 with h1 | h1 <;>
    simp [min_def, max_def] <;> split_ifs <;> linarith

/-- C7: whenever detection runs inside a supplied ROI, both size bounds
passed to the detector equal the configured bounds rescaled by the ratio
of full-frame width to ROI width and clamped into [0.01, 1.0], for every
positive ROI width. -/
theorem detect_size_bounds_clamped (smin smax : ℚ) (cols w : Int) (hw : 0 < w) :
    detect_size_bounds smin smax cols w
      = (clamp_unit_interval (smin * ((cols : ℚ) / (w : ℚ))),
         clamp_unit_interval (smax * ((cols : ℚ) / (w : ℚ)))) ∧
    1/100 ≤ (detect_size_bounds smin smax cols w).1 ∧
    (detect_size_bounds smin smax cols w).1 ≤ 1 ∧
    1/100 ≤ (detect_size_bounds smin smax cols w).2 ∧
    (detect_size_bounds smin smax cols w).2 ≤ 1 := by
  unfold detect_size_bounds clamp_unit_interval
  rw [mul_div_assoc, mul_div_assoc]
  refine ⟨by rw [clamp_orders_eq], ?_, ?_, ?_, ?_⟩
  · exact le_min (by norm_num) (le_max_left _ _)
  · exact min_le_left _ _
  · exact le_max_left _ _
  · exact max_le (by norm_num) (min_le_left _ _)

/-- Witness for C7: a 640-wide frame with a 320-wide ROI and the stock
bounds (0.05, 0.3). -/
theorem detect_size_bounds_clamped_witness :
    (0 : Int) < 320 ∧
    detect_size_bounds (1/20) (3/10) 640 320
      = (clamp_unit_interval ((1/20) * ((640 : ℚ) / (320 : ℚ))),
         clamp_unit_interval ((3/10) * ((640 : ℚ) / (320 : ℚ)))) :=
  ⟨by decide, (detect_size_bounds_clamped (1/20) (3/10) 640 320 (by decide)).1⟩

/-- C8: if opening the camera fails, `run` performs no iteration — the
tracker state is returned untouched, and from the initial state the
published pose stays all-zero. -/
theorem run_open_failure (RC : ℚ) (envs : List Env) (st : TrackerState) :
    run RC false envs st = st ∧
    (run RC false envs initial_state).pose = ⟨0, 0, 0, 0, 0, 0⟩ :=
  ⟨by simp [run], by simp [run, initial_state]⟩

/-- C2: in any capture-loop iteration where a frame was read but detection
fails, or detection succeeds and the PnP solve fails, the published pose is
exactly the previous iteration's pose and the ROI becomes the sentinel
(65535, 65535, 0, 0). -/
theorem iterate_failure_keeps_pose (RC : ℚ) (env : Env) (st : TrackerState)
    (hread : env.readOk = true)
    (hfail : iter_found env st = false ∨ env.solveOk = false) :
    (iterate RC env st).1.pose = st.pose ∧ (iterate RC env st).1.last_roi = no_roi := by
  unfold iterate
  rw [hread]
  by_cases hok : iter_found env st = true
  · rcases hfail with hf | hs
    · rw [hf] at hok
      exact absurd hok (by simp)
    · simp only [iter_found] at hok
      simp [hok, hs]
  · have hf : iter_found env st = false := by simpa using hok
    simp only [iter_found] at hf
    simp [hf]

/-- Witness for C2: a read frame on which both detection attempts fail,
starting from the initial state. -/
theorem iterate_failure_keeps_pose_witness :
    c2_env.readOk = true ∧
    (iterate (1/4) c2_env initial_state).1.pose = initial_state.pose ∧
    (iterate (1/4) c2_env initial_state).1.last_roi = no_roi :=
  ⟨rfl, (iterate_failure_keeps_pose (1/4) c2_env initial_state rfl (Or.inl rfl)).1,
    (iterate_failure_keeps_pose (1/4) c2_env initial_state rfl (Or.inl rfl)).2⟩

/-- C4: if the ROI-constrained attempt does not yield a marker but
full-frame detection returns exactly one marker with exactly four corners,
the iteration reports the marker as found. -/
theorem fallback_detection_found (RC : ℚ) (env : Env) (st : TrackerState) (m : Marker)
    (hread : env.readOk = true)
    (hroi : (detect_with_roi st.last_roi env.roiDetected).found = false)
    (hfull : env.fullDetected = [m]) (hm : m.length = 4) :
    (iterate RC env st).2 = true := by
  unfold iterate
  rw [hread]
  cases hsv : env.solveOk <;> simp [hroi, hfull, detect_without_roi, hm, hsv]

/-- Witness for C4: an empty ROI result with a single 4-corner full-frame
marker, from the initial state. -/
theorem fallback_detection_found_witness :
    (detect_with_roi initial_state.last_roi c4_env.roiDetected).found = false ∧
    (iterate (1/4) c4_env initial_state).2 = true :=
  ⟨rfl, fallback_detection_found (1/4) c4_env initial_state
    [⟨1, 2⟩, ⟨3, 4⟩, ⟨5, 6⟩, ⟨7, 8⟩] rfl rfl rfl rfl⟩

/-- C9: the ROI-constrained attempt invokes the detector exactly when the
stored ROI has width > 1 and height > 1; whenever it does not return a
marker the stored ROI becomes the sentinel (before the full-frame fallback
runs); and on success it returns the single detected marker's corners
offset back into full-frame coordinates by the ROI origin. -/
theorem detect_with_roi_contract (roi : Rect) (detected : List Marker) :
    ((detect_with_roi roi detected).ran = true ↔ (1 < roi.w ∧ 1 < roi.h)) ∧
    ((detect_with_roi roi detected).found = false →
      (detect_with_roi roi detected).roi = no_roi) ∧
    ((detect_with_roi roi detected).found = true →
      ∃ m, detected = [m] ∧ m.length = 4 ∧
        (detect_with_roi roi detected).markers
          = [m.map fun p => ⟨p.x + (roi.x : ℚ), p.y + (roi.y : ℚ)⟩]) := by
  unfold detect_with_roi
  by_cases h : 1 < roi.w ∧ 1 < roi.h
  · rcases detected with _ | ⟨m, _ | ⟨m2, rest⟩⟩
    · simp [h]
    · by_cases hm : m.length = 4
      · simp [h, hm]
      · simp [h, hm]
    · simp [h]
  · simp [h]

/-- Witness for C9: a degenerate stored ROI (width 1) with a marker the
detector would have returned — the attempt does not run and the ROI is
reset to the sentinel. -/
theorem detect_with_roi_contract_witness :
    (detect_with_roi ⟨10, 10, 1, 5⟩ [[⟨1, 2⟩, ⟨3, 4⟩, ⟨5, 6⟩, ⟨7, 8⟩]]).found = false ∧
    (detect_with_roi ⟨10, 10, 1, 5⟩ [[⟨1, 2⟩, ⟨3, 4⟩, ⟨5, 6⟩, ⟨7, 8⟩]]).roi = no_roi :=
  ⟨rfl, (detect_with_roi_contract ⟨10, 10, 1, 5⟩ [[⟨1, 2⟩, ⟨3, 4⟩, ⟨5, 6⟩, ⟨7, 8⟩]]).2.1 rfl⟩

/-- Helper: the initial pose-store system state satisfies the invariant. -/
theorem initSys_inv : Inv initSys := by
  unfold Inv initSys
  dsimp only
  refine ⟨by simp, by simp, by omega, by omega, by omega, ?_, ?_⟩
  · intro i
    rw [if_neg (by omega)]
  · intro i hle
    exact absurd hle (by omega)

/-- Helper: every writer/reader micro-step preserves the pose-store
invariant. -/
theorem inv_step {s s' : SysState} (hinv : Inv s) (hstep : Step s s') : Inv s' := by
  obtain ⟨hw1, hr1, hw7, hr7, hwc, hsl, hrb⟩ := hinv
  cases hstep with
  | w_acquire h hpc =>
    have hrpc0 : ¬(1 ≤ s.rpc ∧ s.rpc ≤ 7) := fun hc => by
      rw [hr1.mpr hc] at h
      simp at h
    unfold Inv
    dsimp only
    refine ⟨by simp, by simp [hrpc0], by omega, hr7, hwc, ?_, ?_⟩
    · intro j
      rw [hsl j, hpc]
      split_ifs <;> omega
    · intro j hle
      exact hrb j hle
  | w_write i hpc =>
    have hi6 := i.isLt
    have hlock : s.lock = some Tid.writer := hw1.mpr ⟨by omega, by omega⟩
    unfold Inv
    dsimp only
    refine ⟨⟨fun _ => ⟨by omega, by omega⟩, fun _ => hlock⟩, hr1, by omega, hr7, hwc, ?_, ?_⟩
    · intro j
      by_cases hji : j = i
      · subst hji
        rw [Function.update_same, hpc, if_pos (by omega)]
      · have hv : j.val ≠ i.val := fun hv => hji (Fin.ext hv)
        rw [Function.update_noteq hji, hsl j, hpc]
        split_ifs <;> omega
    · intro j hle
      exact hrb j hle
  | w_release hpc =>
    have hlock : s.lock = some Tid.writer := hw1.mpr ⟨by omega, by omega⟩
    have hnr : ¬(1 ≤ s.rpc ∧ s.rpc ≤ 7) := fun hc => by
      rw [hr1.mpr hc] at hlock
      simp at hlock
    have hrpc0 : s.rpc = 0 := by omega
    unfold Inv
    dsimp only
    refine ⟨by simp, by simp [hrpc0], by omega, hr7, by omega, ?_, ?_⟩
    · intro j
      have := j.isLt
      rw [hsl j, hpc]
      split_ifs <;> omega
    · intro j hle
      rw [hrpc0] at hle
      exact absurd hle (by omega)
  | r_acquire h hpc =>
    have hwpc0 : ¬(1 ≤ s.wpc ∧ s.wpc ≤ 7) := fun hc => by
      rw [hw1.mpr hc] at h
      simp at h
    unfold Inv
    dsimp only
    refine ⟨by simp [hwpc0], by simp, hw7, by omega, hwc, fun j => hsl j, ?_⟩
    · intro j hle
      exact absurd hle (by omega)
  | r_read i hpc =>
    have hi6 := i.isLt
    have hlockr : s.lock = some Tid.reader := hr1.mpr ⟨by omega, by omega⟩
    have hnw : ¬(1 ≤ s.wpc ∧ s.wpc ≤ 7) := fun hc => by
      rw [hw1.mpr hc] at hlockr
      simp at hlockr
    have hwpc0 : s.wpc = 0 := by omega
    unfold Inv
    dsimp only
    refine ⟨hw1, ⟨fun _ => ⟨by omega, by omega⟩, fun _ => hlockr⟩, hw7, by omega, hwc,
      fun j => hsl j, ?_⟩
    · intro j hle
      rw [hpc] at hle
      by_cases hji : j = i
      · subst hji
        rw [Function.update_same, hsl j, hwpc0, if_neg (by omega)]
      · have hv : j.val ≠ i.val := fun hv => hji (Fin.ext hv)
        rw [Function.update_noteq hji]
        exact hrb j (by omega)
  | r_release hpc =>
    have hlockr : s.lock = some Tid.reader := hr1.mpr ⟨by omega, by omega⟩
    have hnw : ¬(1 ≤ s.wpc ∧ s.wpc ≤ 7) := fun hc => by
      rw [hw1.mpr hc] at hlockr
      simp at hlockr
    have hwpc0 : s.wpc = 0 := by omega
    unfold Inv
    dsimp only
    refine ⟨by simp [hwpc0], by simp, hw7, by omega, hwc, fun j => hsl j, ?_⟩
    · intro j hle
      exact absurd hle (by omega)

/-- Helper: the invariant holds in every reachable pose-store state. -/
theorem reachable_inv {s : SysState} (h : Reachable s) : Inv s := by
  induction h with
  | init => exact initSys_inv
  | step _ hs ih => exact inv_step ih hs

/-- C10: in every reachable interleaving of the lock-guarded pose writes
(`set_rmat`) and pose reads (`aruco_tracker::data`), a completed read's
six buffered components all carry the identity of a single write — a torn
pose is never observed. -/
theorem pose_read_not_torn (s : SysState) (hreach : Reachable s) (hdone : s.rpc = 7) :
    ∀ i j : Fin 6, s.rbuf i = s.rbuf j := by
  obtain ⟨hw1, hr1, hw7, hr7, hwc, hsl, hrb⟩ := reachable_inv hreach
  intro i j
  have hi := hrb i (by have := i.isLt; omega)
  have hj := hrb j (by have := j.isLt; omega)
  rw [hi, hj]

/-- Witness for C10: a concrete completed read (lock acquire followed by
the six component loads) from the initial state. -/
theorem pose_read_not_torn_witness :
    c10_t7.rpc = 7 ∧ c10_t7.rbuf 0 = c10_t7.rbuf 5 := by
  have r1 : Reachable c10_t1 := Reachable.step Reachable.init (Step.r_acquire initSys rfl rfl)
  have r2 : Reachable c10_t2 := Reachable.step r1 (Step.r_read c10_t1 0 rfl)
  have r3 : Reachable c10_t3 := Reachable.step r2 (Step.r_read c10_t2 1 rfl)
  have r4 : Reachable c10_t4 := Reachable.step r3 (Step.r_read c10_t3 2 rfl)
  have r5 : Reachable c10_t5 := Reachable.step r4 (Step.r_read c10_t4 3 rfl)
  have r6 : Reachable c10_t6 := Reachable.step r5 (Step.r_read c10_t5 4 rfl)
  have r7 : Reachable c10_t7 := Reachable.step r6 (Step.r_read c10_t6 5 rfl)
  exact ⟨rfl, pose_read_not_torn c10_t7 r7 rfl 0 5⟩

end Aruco
